import Mathlib

/-!
Verification development for `caltech_holidays.py`: a shallow embedding of
the date/table parser, event identity and builder, merge engine, and
orchestrator, followed by theorems settling the specification claims.

Machine integers are modelled as `Nat` with explicit `% 2 ^ 32` where the
source's 32-bit arithmetic (inside SHA-256) overflows.  Fallible parsing is
modelled with `Option`/`Except`: Python code that raises an exception which
escapes the function is modelled as an `Except.error`/abort outcome.
-/

namespace CaltechHolidays

/-! ## Calendar dates (`datetime.date`) -/

/-- A proleptic-Gregorian calendar date, as held by Python `datetime.date`. -/
structure Date where
  year : Nat
  month : Nat
  day : Nat
deriving DecidableEq, Repr

/-- A timestamp, as held by Python `datetime.datetime` (naive, second
resolution suffices for this program). -/
structure DateTime where
  year : Nat
  month : Nat
  day : Nat
  hour : Nat
  minute : Nat
  second : Nat
deriving DecidableEq, Repr

/-! ## Python string primitives

Models of the `str` operations the program uses, written over the
character list of a `String` (Python strings index by code points, so the
character-level view is the faithful one). -/

/-- The whitespace characters `str.strip()` removes (the ASCII ones the
page can contain), by code point: space, tab, newline, carriage return,
vertical tab, form feed. -/
def isPySpace (c : Char) : Bool :=
  let n := c.toNat
  n == 32 || n == 9 || n == 10 || n == 13 || n == 11 || n == 12

/-- Python `s.strip()`. -/
def pyStrip (s : String) : String :=
  String.mk (((s.data.dropWhile isPySpace).reverse.dropWhile isPySpace).reverse)

/-- Whether `cs` begins with the characters `ps`. -/
def charsStartWith : List Char → List Char → Bool
  | _, [] => true
  | [], _ :: _ => false
  | c :: cs, p :: ps => c == p && charsStartWith cs ps

/-- Python `s.startswith(p)`. -/
def pyStartsWith (s p : String) : Bool :=
  charsStartWith s.data p.data

/-- Python `s.lower()` over the ASCII range, by code point. -/
def pyLowerChar (c : Char) : Char :=
  let n := c.toNat
  if 65 ≤ n ∧ n ≤ 90 then Char.ofNat (n + 32) else c

/-- Python `s.lower()`. -/
def pyLower (s : String) : String :=
  String.mk (s.data.map pyLowerChar)

/-- Split at every occurrence of the non-empty separator `sep`; `fuel`
bounds the recursion and is supplied as the input length plus one, which
suffices since every step consumes at least one character. -/
def splitOnAux (sep : List Char) (fuel : Nat) (s : List Char)
    (cur : List Char) : List (List Char) :=
  match fuel with
  | 0 => [cur.reverse]
  | fuel + 1 =>
    match s with
    | [] => [cur.reverse]
    | c :: rest =>
      if charsStartWith (c :: rest) sep then
        cur.reverse :: splitOnAux sep fuel (List.drop sep.length (c :: rest)) []
      else
        splitOnAux sep fuel rest (c :: cur)

/-- Python `s.split(sep)` for a non-empty separator. -/
def pySplitOn (s sep : String) : List String :=
  (splitOnAux sep.data (s.data.length + 1) s.data []).map String.mk

/-- The numeric value of a decimal digit character, by code point. -/
def charDigit? (c : Char) : Option Nat :=
  let n := c.toNat
  if 48 ≤ n ∧ n ≤ 57 then some (n - 48) else none

def parseNatCharsAux : List Char → Nat → Option Nat
  | [], acc => some acc
  | c :: cs, acc =>
    match charDigit? c with
    | some d => parseNatCharsAux cs (acc * 10 + d)
    | none => none

/-- The value of a non-empty all-digit string, as `int(s)` on such input. -/
def parseNatChars (s : List Char) : Option Nat :=
  match s with
  | [] => none
  | _ => parseNatCharsAux s 0

/-- Python `len(s)` (code points). -/
def pyLen (s : String) : Nat := s.data.length

/-- Python `s[-n:]`: the last `n` characters. -/
def pyTakeRight (s : String) (n : Nat) : String :=
  String.mk (s.data.drop (s.data.length - n))

/-- Gregorian leap-year rule, as used by Python `datetime`. -/
def isLeapYear (y : Nat) : Bool :=
  y % 4 == 0 && (y % 100 != 0 || y % 400 == 0)

/-- Number of days in a month, as used by Python `datetime`. -/
def daysInMonth (y m : Nat) : Nat :=
  if m == 2 then (if isLeapYear y then 29 else 28)
  else if m == 4 || m == 6 || m == 9 || m == 11 then 30
  else 31

/-- `d + timedelta(days=1)`: the next calendar day. -/
def nextDay (d : Date) : Date :=
  if d.day < daysInMonth d.year d.month then ⟨d.year, d.month, d.day + 1⟩
  else if d.month < 12 then ⟨d.year, d.month + 1, 1⟩
  else ⟨d.year + 1, 1, 1⟩

/-- Decimal rendering of a natural, zero-padded on the left to `w` digits,
as Python `%02d`-style formatting inside `date.isoformat()`. -/
def padNat (w n : Nat) : String :=
  let s := toString n
  String.mk (List.replicate (w - s.length) '0') ++ s

/-- `date.isoformat()`: the `YYYY-MM-DD` rendering of a date. -/
def Date.isoformat (d : Date) : String :=
  padNat 4 d.year ++ "-" ++ padNat 2 d.month ++ "-" ++ padNat 2 d.day

/-! ## UTF-8 encoding (`str.encode('utf-8')`) -/

/-- UTF-8 encoding of one Unicode code point as a list of byte values. -/
def utf8EncodeCharNat (c : Char) : List Nat :=
  let n := c.toNat
  if n < 0x80 then [n]
  else if n < 0x800 then
    [0xC0 ||| (n >>> 6), 0x80 ||| (n &&& 0x3F)]
  else if n < 0x10000 then
    [0xE0 ||| (n >>> 12), 0x80 ||| ((n >>> 6) &&& 0x3F), 0x80 ||| (n &&& 0x3F)]
  else
    [0xF0 ||| (n >>> 18), 0x80 ||| ((n >>> 12) &&& 0x3F),
     0x80 ||| ((n >>> 6) &&& 0x3F), 0x80 ||| (n &&& 0x3F)]

/-- `s.encode('utf-8')` as a list of byte values. -/
def utf8Bytes (s : String) : List Nat :=
  s.data.foldr (fun c acc => utf8EncodeCharNat c ++ acc) []

/-! ## SHA-256 (`hashlib.sha256`)

A direct embedding of FIPS 180-4 SHA-256 over byte lists, with 32-bit words
as `Nat` reduced `% 2 ^ 32`. -/

def w32 : Nat := 4294967296

/-- 32-bit right rotation. -/
def rotr32 (n x : Nat) : Nat :=
  ((x >>> n) ||| (x <<< (32 - n))) % w32

/-- The 64 SHA-256 round constants of FIPS 180-4, in decimal. -/
def sha256K : List Nat :=
  [1116352408, 1899447441, 3049323471, 3921009573, 961987163,
   1508970993, 2453635748, 2870763221, 3624381080, 310598401,
   607225278, 1426881987, 1925078388, 2162078206, 2614888103,
   3248222580, 3835390401, 4022224774, 264347078, 604807628,
   770255983, 1249150122, 1555081692, 1996064986, 2554220882,
   2821834349, 2952996808, 3210313671, 3336571891, 3584528711,
   113926993, 338241895, 666307205, 773529912, 1294757372,
   1396182291, 1695183700, 1986661051, 2177026350, 2456956037,
   2730485921, 2820302411, 3259730800, 3345764771, 3516065817,
   3600352804, 4094571909, 275423344, 430227734, 506948616,
   659060556, 883997877, 958139571, 1322822218, 1537002063,
   1747873779, 1955562222, 2024104815, 2227730452, 2361852424,
   2428436474, 2756734187, 3204031479, 3329325298]

/-- The 8 initial SHA-256 hash words of FIPS 180-4, in decimal. -/
def sha256H0 : List Nat :=
  [1779033703, 3144134277, 1013904242, 2773480762,
   1359893119, 2600822924, 528734635, 1541459225]

/-- SHA-256 padding: append `0x80`, zero bytes to 56 mod 64, then the
bit length as 8 big-endian bytes. -/
def sha256Pad (msg : List Nat) : List Nat :=
  let l := msg.length
  let zeros := (64 + 56 - ((l + 1) % 64)) % 64
  let bitLen := 8 * l
  msg ++ [0x80] ++ List.replicate zeros 0 ++
    (List.range 8).map (fun i => (bitLen >>> (8 * (7 - i))) &&& 0xFF)

/-- Split a byte list into 64-byte blocks; `fuel` bounds the recursion and
is supplied as the list's length, which each step strictly decreases. -/
def chunk64Aux (fuel : Nat) (bytes : List Nat) : List (List Nat) :=
  match fuel, bytes with
  | 0, _ => []
  | _, [] => []
  | fuel + 1, bytes => bytes.take 64 :: chunk64Aux fuel (bytes.drop 64)

/-- Split a padded byte list into 64-byte blocks. -/
def chunk64 (bytes : List Nat) : List (List Nat) :=
  chunk64Aux bytes.length bytes

/-- Big-endian 32-bit words of one 64-byte block. -/
def blockWords (block : List Nat) : List Nat :=
  (List.range 16).map (fun i =>
    (block.getD (4 * i) 0 <<< 24) + (block.getD (4 * i + 1) 0 <<< 16) +
    (block.getD (4 * i + 2) 0 <<< 8) + block.getD (4 * i + 3) 0)

/-- The 64-entry message schedule of one block. -/
def messageSchedule (ws : List Nat) : List Nat :=
  (List.range 48).foldl
    (fun w _ =>
      let i := w.length
      let s0 := rotr32 7 (w.getD (i - 15) 0) ^^^ rotr32 18 (w.getD (i - 15) 0) ^^^
                (w.getD (i - 15) 0 >>> 3)
      let s1 := rotr32 17 (w.getD (i - 2) 0) ^^^ rotr32 19 (w.getD (i - 2) 0) ^^^
                (w.getD (i - 2) 0 >>> 10)
      w ++ [(w.getD (i - 16) 0 + s0 + w.getD (i - 7) 0 + s1) % w32])
    ws

/-- One SHA-256 compression round applied to the 8-word state. -/
def sha256Round (st : List Nat) (kw : Nat × Nat) : List Nat :=
  let a := st.getD 0 0
  let b := st.getD 1 0
  let c := st.getD 2 0
  let d := st.getD 3 0
  let e := st.getD 4 0
  let f := st.getD 5 0
  let g := st.getD 6 0
  let h := st.getD 7 0
  let S1 := rotr32 6 e ^^^ rotr32 11 e ^^^ rotr32 25 e
  let ch := (e &&& f) ^^^ ((w32 - 1 - e) &&& g)
  let temp1 := (h + S1 + ch + kw.1 + kw.2) % w32
  let S0 := rotr32 2 a ^^^ rotr32 13 a ^^^ rotr32 22 a
  let maj := (a &&& b) ^^^ (a &&& c) ^^^ (b &&& c)
  let temp2 := (S0 + maj) % w32
  [(temp1 + temp2) % w32, a, b, c, (d + temp1) % w32, e, f, g]

/-- Process one 64-byte block, updating the running hash. -/
def sha256Block (hash : List Nat) (block : List Nat) : List Nat :=
  let w := messageSchedule (blockWords block)
  let st := (sha256K.zip w).foldl sha256Round hash
  (List.range 8).map (fun i => (hash.getD i 0 + st.getD i 0) % w32)

/-- SHA-256 digest of a byte list, as the 8 final 32-bit words. -/
def sha256Words (msg : List Nat) : List Nat :=
  (chunk64 (sha256Pad msg)).foldl sha256Block sha256H0

def hexDigit (n : Nat) : Char :=
  "0123456789abcdef".data.getD n '0'

/-- Lowercase hexadecimal rendering of a 32-bit word, 8 digits. -/
def wordToHex (x : Nat) : List Char :=
  (List.range 8).map (fun i => hexDigit ((x >>> (4 * (7 - i))) &&& 0xF))

/-- `hashlib.sha256(msg).hexdigest()`: the lowercase 64-hex-char digest. -/
def sha256Hex (msg : List Nat) : String :=
  String.mk ((sha256Words msg).foldr (fun word acc => wordToHex word ++ acc) [])

/-! ## Event identity and builder (`make_uid`, `make_event`) -/

/-- The `Holiday` namedtuple: one extracted `(date, description)` record. -/
structure Holiday where
  date : Date
  description : String
deriving DecidableEq, Repr

/-- `make_uid(event_date, description)`:
`sha256((event_date.isoformat() + description).encode('utf-8')).hexdigest()`. -/
def make_uid (event_date : Date) (description : String) : String :=
  sha256Hex (utf8Bytes (event_date.isoformat ++ description))

/-- An iCalendar `VEVENT` as this program builds and reads them: the five
properties `UID`, `DTSTART`, `DTEND`, `DTSTAMP`, `SUMMARY`. -/
structure VEvent where
  uid : String
  dtstart : Date
  dtend : Date
  dtstamp : DateTime
  summary : String
deriving DecidableEq, Repr

/-- A subcomponent of the calendar as seen by `cal.walk()`: either a
`VEVENT` carrying a `UID` property, or some other component without one
(skipped by `get_known_event_uids`'s `has_key("UID")` guard). -/
inductive Component where
  | vevent (e : VEvent)
  | noUidComponent (tag : String)
deriving DecidableEq, Repr

/-- The iCalendar container: its two metadata properties and its ordered
subcomponents. -/
structure VCalendar where
  version : Option String
  prodid : Option String
  components : List Component
deriving DecidableEq, Repr

/-- `make_event(event_date, description, dtstamp)`: builds the event with
`uid = make_uid(event_date, description)`, `dtstart = event_date`,
`dtend = event_date + timedelta(days=1)`, and the stamp stored as given. -/
def make_event (event_date : Date) (description : String) (dtstamp : DateTime) :
    VEvent :=
  { uid := make_uid event_date description
    dtstart := event_date
    dtend := nextDay event_date
    dtstamp := dtstamp
    summary := description }

/-- `get_event_uid(event)`: recomputes the uid from the stored `DTSTART`
and `SUMMARY` and returns the recomputed value (never the stored one). -/
def get_event_uid (event : VEvent) : String :=
  make_uid event.dtstart event.summary

/-- Whether `get_event_uid(event)` emits its warning: true exactly when the
stored `UID` disagrees with the recomputed one.  The warning is a log line;
the function still returns the recomputed uid. -/
def get_event_uid_warns (event : VEvent) : Bool :=
  event.uid != make_uid event.dtstart event.summary

/-- The events among a calendar's components (those `walk()` yields that
carry a `UID` property). -/
def uidComponents (cal : VCalendar) : List VEvent :=
  cal.components.filterMap (fun c =>
    match c with
    | Component.vevent e => some e
    | Component.noUidComponent _ => none)

/-- `get_known_event_uids(cal)`: the recomputed uids of every component in
the calendar that carries a `UID` field.  Python builds a `set`; membership
is all that is ever consumed, so a list with `∈` models it. -/
def get_known_event_uids (cal : VCalendar) : List String :=
  (uidComponents cal).map get_event_uid

/-- `add_unique_event(cal, event)`: append the event unless its recomputed
uid is already among the calendar's known uids. -/
def add_unique_event (cal : VCalendar) (event : VEvent) : VCalendar :=
  let known_uids := get_known_event_uids cal
  let uid := get_event_uid event
  if uid ∈ known_uids then cal
  else { cal with components := cal.components ++ [Component.vevent event] }

/-- `create_or_load_icalendar(filename)`: the loaded calendar when the file
exists and parses, otherwise a fresh calendar holding only the version and
producer metadata.  The file system read is the collaborator's side; its
outcome is the `loaded` argument. -/
def create_or_load_icalendar (loaded : Option VCalendar) : VCalendar :=
  match loaded with
  | some cal => cal
  | none =>
      { version := some "2.0"
        prodid := some "ghic.org:caltech_holiday.py"
        components := [] }

/-! ## Date string parsing (`datetime.strptime`)

Models of the three fixed `strptime` formats the program uses.  Python's
`strptime` matches month names case-insensitively, accepts 1–2 digit day
fields with values 1–31, requires exactly 4 digits for `%Y`, and the
`date()` constructor then validates the day against the month and the year
against 1–9999. -/

def monthNames : List String :=
  ["january", "february", "march", "april", "may", "june", "july",
   "august", "september", "october", "november", "december"]

/-- `%B`: the 1-based month number of a full month name, case-insensitive. -/
def monthFromName (s : String) : Option Nat :=
  (monthNames.findIdx? (fun m => decide (m = pyLower s))).map (· + 1)

/-- `%d`: a 1–2 digit day-of-month field with value 1–31. -/
def parseDayField (s : String) : Option Nat :=
  if pyLen s == 1 || pyLen s == 2 then
    match parseNatChars s.data with
    | some n => if 1 ≤ n && n ≤ 31 then some n else none
    | none => none
  else none

/-- `%Y`: an exactly-4-digit year field. -/
def parseYearField (s : String) : Option Nat :=
  if pyLen s == 4 then parseNatChars s.data else none

/-- `datetime.date(y, m, d)` construction: validates the ranges. -/
def mkValidDate (y m d : Nat) : Option Date :=
  if 1 ≤ y && y ≤ 9999 && 1 ≤ m && m ≤ 12 && 1 ≤ d && d ≤ daysInMonth y m
  then some ⟨y, m, d⟩ else none

/-- `datetime.strptime(s, "%B %d, %Y").date()`: full month name, day,
comma, 4-digit year, e.g. `January 1, 2024`. -/
def strptimeMonthDayCommaYear (s : String) : Option Date :=
  match pySplitOn s ", " with
  | [md, ys] =>
    match pySplitOn md " " with
    | [mon, ds] =>
      match monthFromName mon, parseDayField ds, parseYearField ys with
      | some m, some d, some y => mkValidDate y m d
      | _, _, _ => none
    | _ => none
  | _ => none

/-- `datetime.strptime(s, "%Y %B %d").date()`: 4-digit year, full month
name, day, e.g. `2024 January 1`. -/
def strptimeYearMonthDay (s : String) : Option Date :=
  match pySplitOn s " " with
  | [ys, mon, ds] =>
    match parseYearField ys, monthFromName mon, parseDayField ds with
    | some y, some m, some d => mkValidDate y m d
    | _, _, _ => none
  | _ => none

/-! ## Table and header extraction -/

/-- The outcome of running an extraction generator to exhaustion or to an
escaping exception: the records yielded before any failure, the
info/warning/error diagnostics emitted (debug-level traces omitted), and
the `ValueError` that escaped, if one did. -/
structure ExtractResult where
  records : List Holiday
  infos : List String
  error : Option String
deriving DecidableEq, Repr

/-- `get_table_entries(year, table)` over the rows' cell texts: a row with
exactly 4 cells is examined; its 3rd cell is the day specifier and its 4th
the description.  A dated row is parsed with the explicit-year format then
the section-year fallback; if both fail the `ValueError` escapes and the
generator dies.  A non-dated row (`-` day) is silently skipped when the
description is `Personal Holiday` and skipped with an info diagnostic
otherwise.  Rows without exactly 4 cells are skipped with no diagnostic. -/
def get_table_entries (year : String) (rows : List (List String)) :
    ExtractResult :=
  match rows with
  | [] => ⟨[], [], none⟩
  | row :: rest =>
    match row with
    | [c0, c1, c2, c3] =>
      let day := pyStrip c2
      let description := pyStrip c3
      if !pyStartsWith day "-" then
        match strptimeMonthDayCommaYear day with
        | some date =>
          let r := get_table_entries year rest
          ⟨⟨date, description⟩ :: r.records, r.infos, r.error⟩
        | none =>
          match strptimeYearMonthDay (year ++ " " ++ day) with
          | some date =>
            let r := get_table_entries year rest
            ⟨⟨date, description⟩ :: r.records, r.infos, r.error⟩
          | none =>
            ⟨[], [], some ("time data does not match format: " ++ day)⟩
      else if description = "Personal Holiday" then
        get_table_entries year rest
      else
        let r := get_table_entries year rest
        ⟨r.records,
         ("unrecognized calendar line: " ++ c0 ++ c1 ++ c2 ++ c3) :: r.infos,
         r.error⟩
    | _ => get_table_entries year rest

/-- `get_year_from_header(header)` over the heading's text content: strip,
require the fixed title, and return the last 4 characters. -/
def get_year_from_header (headerText : String) : Option String :=
  let header := pyStrip headerText
  if pyStartsWith header "Caltech Holiday Observances for " then
    some (pyTakeRight header 4)
  else none

/-- A document as the extractor sees it: each level-3 heading's text
content paired with the rows of the table that follows it (the sibling
walk of `get_table_from_header` supplies the pairing). -/
def DocSections : Type := List (String × List (List String))

/-- `get_calendar_entries(tree)`: for each heading in document order, skip
it with an error diagnostic when the title does not match, otherwise yield
that section's table entries; a `ValueError` escaping a section's rows
kills the whole generator, keeping the records yielded before it. -/
def get_calendar_entries (doc : DocSections) : ExtractResult :=
  match doc with
  | [] => ⟨[], [], none⟩
  | (h, rows) :: rest =>
    match get_year_from_header h with
    | none =>
      let r := get_calendar_entries rest
      ⟨r.records, ("Unrecognized table title: " ++ pyStrip h) :: r.infos, r.error⟩
    | some year =>
      let r := get_table_entries year rows
      match r.error with
      | some e => ⟨r.records, r.infos, some e⟩
      | none =>
        let r2 := get_calendar_entries rest
        ⟨r.records ++ r2.records, r.infos ++ r2.infos, r2.error⟩

/-! ## Last-Modified parsing and the orchestrator -/

def dayAbbrevs : List String := ["mon", "tue", "wed", "thu", "fri", "sat", "sun"]

def monthAbbrevs : List String :=
  ["jan", "feb", "mar", "apr", "may", "jun", "jul", "aug", "sep", "oct",
   "nov", "dec"]

/-- `%H`/`%M`/`%S`: a 1–2 digit field bounded by `hi`. -/
def parseTimeField (hi : Nat) (s : String) : Option Nat :=
  if pyLen s == 1 || pyLen s == 2 then
    match parseNatChars s.data with
    | some n => if n ≤ hi then some n else none
    | none => none
  else none

/-- `datetime.strptime(s, '%a, %d %b %Y %H:%M:%S %Z')`: the HTTP date
format of a `Last-Modified` header, e.g. `Wed, 18 Oct 2023 01:02:03 GMT`. -/
def strptimeHttpDate (s : String) : Option DateTime :=
  match pySplitOn s ", " with
  | [wd, rest] =>
    if pyLower wd ∈ dayAbbrevs then
      match pySplitOn rest " " with
      | [ds, mons, ys, hms, tz] =>
        match parseDayField ds,
              (monthAbbrevs.findIdx? (fun m => decide (m = pyLower mons))).map (· + 1),
              parseYearField ys with
        | some d, some m, some y =>
          match pySplitOn hms ":" with
          | [hs, mins, secs] =>
            match parseTimeField 23 hs, parseTimeField 59 mins,
                  parseTimeField 61 secs with
            | some hh, some mm, some ss =>
              if (pyLower tz = "gmt" ∨ pyLower tz = "utc") ∧
                 1 ≤ y ∧ y ≤ 9999 ∧ d ≤ daysInMonth y m then
                some ⟨y, m, d, hh, mm, ss⟩
              else none
            | _, _, _ => none
          | _ => none
        | _, _, _ => none
      | _ => none
    else none
  | _ => none

/-- `parse_last_modified(header)`: a missing header yields
`datetime.now()`; a present header is parsed with the HTTP date format, a
failure raising a `ValueError` that escapes the function.  `now` is the
clock reading the collaborator supplies. -/
def parse_last_modified (header : Option String) (now : DateTime) :
    Except String DateTime :=
  match header with
  | none => Except.ok now
  | some s =>
    match strptimeHttpDate s with
    | some dt => Except.ok dt
    | none => Except.error ("time data does not match format: " ++ s)

def ERROR_GET_PAGE_FAILED : Nat := 1
def ERROR_PARSE_FAILED : Nat := 2
def ERROR_NO_EVENTS : Nat := 3
def ERROR_UNKNOWN : Nat := 255

/-- What a run leaves behind: the calendar written to the output file (none
under dry-run or on a fatal outcome before the write) and the process exit
status. -/
structure RunOutcome where
  written : Option VCalendar
  exitCode : Nat
deriving DecidableEq, Repr

/-- `main` from the point the page request resolves: `pageOk` is whether
`request_holiday_page()` succeeded, `lastModified` the response's
`Last-Modified` header, `doc` the parsed document, `loaded` the existing
calendar file's contents when present.  An exception escaping `main` is
caught by the `__main__` wrapper, which exits with `ERROR_UNKNOWN`. -/
def main (pageOk : Bool) (lastModified : Option String) (now : DateTime)
    (doc : DocSections) (loaded : Option VCalendar) (dry_run : Bool) :
    RunOutcome :=
  if !pageOk then ⟨none, ERROR_GET_PAGE_FAILED⟩
  else
    match parse_last_modified lastModified now with
    | Except.error _ => ⟨none, ERROR_UNKNOWN⟩
    | Except.ok dtstamp =>
      -- the `dtstamp is None` guard returning ERROR_PARSE_FAILED is dead:
      -- parse_last_modified either returns a datetime or raises.
      let cal0 := create_or_load_icalendar loaded
      let ext := get_calendar_entries doc
      let cal := ext.records.foldl
        (fun c hrec => add_unique_event c (make_event hrec.date hrec.description dtstamp))
        cal0
      match ext.error with
      | some _ => ⟨none, ERROR_UNKNOWN⟩
      | none =>
        ⟨if dry_run then none else some cal,
         if ext.records.length == 0 then ERROR_NO_EVENTS else 0⟩

/-! ## Validation against the repository's own test vectors

`test_known_event_uids` pins the digests of `(2024-01-01, test_event1)`
and `(2024-01-15, test_event2)`; the embedding reproduces them, anchoring
the SHA-256, UTF-8 and isoformat definitions to the real program. -/

set_option maxRecDepth 10000 in
theorem make_uid_matches_known_digest_1 :
    make_uid ⟨2024, 1, 1⟩ "test_event1" =
      "771ed7592fc59d584934c0b8302d3c09cb7a3c9c2d3787bec86dbabfd7741bac" := by
  decide

set_option maxRecDepth 10000 in
theorem make_uid_matches_known_digest_2 :
    make_uid ⟨2024, 1, 15⟩ "test_event2" =
      "6a7547b3f94c71ce0f5458bbac92efdd98c39bb7e3bb2ffcf28da6dcd0076f1f" := by
  decide

theorem nextDay_examples :
    nextDay ⟨2024, 1, 1⟩ = ⟨2024, 1, 2⟩ ∧ nextDay ⟨2023, 12, 31⟩ = ⟨2024, 1, 1⟩ ∧
    nextDay ⟨2024, 2, 28⟩ = ⟨2024, 2, 29⟩ ∧ nextDay ⟨2023, 2, 28⟩ = ⟨2023, 3, 1⟩ := by
  decide

/-- `test_get_table_entries`: two well-formed dated rows under section year
2024 extract to the expected two records. -/
theorem get_table_entries_matches_repo_test :
    get_table_entries "2024"
      [["1", "Monday", "January 1", "New Years Day"],
       ["2", "Monday", "January 15", "Martin Luther King"]] =
    ⟨[⟨⟨2024, 1, 1⟩, "New Years Day"⟩, ⟨⟨2024, 1, 15⟩, "Martin Luther King"⟩],
     [], none⟩ := by
  decide

/-! ## Shared lemmas about the merge engine -/

theorem get_event_uid_make_event (d : Date) (desc : String) (s : DateTime) :
    get_event_uid (make_event d desc s) = make_uid d desc := rfl

theorem get_known_event_uids_append_event (cal : VCalendar) (ev : VEvent) :
    get_known_event_uids
        { cal with components := cal.components ++ [Component.vevent ev] } =
      get_known_event_uids cal ++ [get_event_uid ev] := by
  simp [get_known_event_uids, uidComponents, List.filterMap_append]

theorem add_unique_event_of_mem (cal : VCalendar) (ev : VEvent)
    (h : get_event_uid ev ∈ get_known_event_uids cal) :
    add_unique_event cal ev = cal := by
  simp [add_unique_event, h]

theorem add_unique_event_of_not_mem (cal : VCalendar) (ev : VEvent)
    (h : get_event_uid ev ∉ get_known_event_uids cal) :
    add_unique_event cal ev =
      { cal with components := cal.components ++ [Component.vevent ev] } := by
  simp [add_unique_event, h]

/-! ## Claim theorems -/

/-- C1: the uid of `make_event(d, desc, stamp)` is the lowercase hex
SHA-256 digest of the UTF-8 bytes of `d.isoformat()` concatenated directly
with `desc`, and it does not depend on the stamp. -/
theorem make_event_uid_is_sha256_and_stamp_independent
    (d : Date) (desc : String) (stamp : DateTime) :
    (make_event d desc stamp).uid = sha256Hex (utf8Bytes (d.isoformat ++ desc)) ∧
    ∀ s1 s2 : DateTime,
      (make_event d desc s1).uid = (make_event d desc s2).uid :=
  ⟨rfl, fun _ _ => rfl⟩

/-- C6: `make_event(d, desc, t)` has `DTSTART = d`, `DTEND = d` plus one
day (exclusive end), `SUMMARY = desc`, and `DTSTAMP = t` stored as given. -/
theorem make_event_fields (d : Date) (desc : String) (t : DateTime) :
    (make_event d desc t).dtstart = d ∧
    (make_event d desc t).dtend = nextDay d ∧
    (make_event d desc t).summary = desc ∧
    (make_event d desc t).dtstamp = t :=
  ⟨rfl, rfl, rfl, rfl⟩

/-- C5: `add_unique_event` never modifies, removes or reorders existing
components: with a known uid the calendar is returned unchanged, and
otherwise the candidate is appended after all existing components, which
are preserved as a prefix, with the metadata untouched. -/
theorem add_unique_event_frame (cal : VCalendar) (ev : VEvent) :
    (add_unique_event cal ev).components.take cal.components.length =
      cal.components ∧
    (get_event_uid ev ∈ get_known_event_uids cal →
      add_unique_event cal ev = cal) ∧
    (get_event_uid ev ∉ get_known_event_uids cal →
      (add_unique_event cal ev).components =
          cal.components ++ [Component.vevent ev] ∧
        (add_unique_event cal ev).version = cal.version ∧
        (add_unique_event cal ev).prodid = cal.prodid) := by
  refine ⟨?_, fun h => add_unique_event_of_mem cal ev h, fun h => ?_⟩
  · by_cases h : get_event_uid ev ∈ get_known_event_uids cal
    · rw [add_unique_event_of_mem cal ev h]
      simp
    · rw [add_unique_event_of_not_mem cal ev h]
      simp [List.take_left]
  · rw [add_unique_event_of_not_mem cal ev h]
    exact ⟨rfl, rfl, rfl⟩

set_option maxRecDepth 10000 in
theorem add_unique_event_frame_app :
    get_event_uid (make_event ⟨2024, 1, 1⟩ "test_event1" ⟨2023, 10, 1, 12, 34, 0⟩) ∈
      get_known_event_uids
        ⟨some "2.0", some "ghic.org:caltech_holiday.py",
         [Component.vevent (make_event ⟨2024, 1, 1⟩ "test_event1" ⟨2023, 5, 1, 12, 34, 0⟩)]⟩ ∧
    add_unique_event
        ⟨some "2.0", some "ghic.org:caltech_holiday.py",
         [Component.vevent (make_event ⟨2024, 1, 1⟩ "test_event1" ⟨2023, 5, 1, 12, 34, 0⟩)]⟩
        (make_event ⟨2024, 1, 1⟩ "test_event1" ⟨2023, 10, 1, 12, 34, 0⟩) =
      ⟨some "2.0", some "ghic.org:caltech_holiday.py",
       [Component.vevent (make_event ⟨2024, 1, 1⟩ "test_event1" ⟨2023, 5, 1, 12, 34, 0⟩)]⟩ := by
  have hmem :
      get_event_uid (make_event ⟨2024, 1, 1⟩ "test_event1" ⟨2023, 10, 1, 12, 34, 0⟩) ∈
        get_known_event_uids
          ⟨some "2.0", some "ghic.org:caltech_holiday.py",
           [Component.vevent (make_event ⟨2024, 1, 1⟩ "test_event1" ⟨2023, 5, 1, 12, 34, 0⟩)]⟩ := by
    simp [get_known_event_uids, uidComponents, get_event_uid_make_event]
  exact ⟨hmem, (add_unique_event_frame _ _).2.1 hmem⟩

/-- C4: `get_event_uid` returns the uid recomputed from the stored date
and summary, never the stored `UID`; it warns (without failing) exactly
when the two disagree; and a stored event whose persisted uid is wrong
still causes `add_unique_event` to discard a fresh candidate with the same
`(date, description)`. -/
theorem get_event_uid_returns_recomputed (e : VEvent) :
    get_event_uid e = make_uid e.dtstart e.summary ∧
    (get_event_uid_warns e = true ↔ e.uid ≠ make_uid e.dtstart e.summary) ∧
    ∀ (cal : VCalendar) (s : DateTime),
      Component.vevent e ∈ cal.components →
        add_unique_event cal (make_event e.dtstart e.summary s) = cal := by
  refine ⟨rfl, by simp [get_event_uid_warns], fun cal s hmem => ?_⟩
  apply add_unique_event_of_mem
  rw [get_event_uid_make_event]
  have : e ∈ uidComponents cal := by
    simp only [uidComponents, List.mem_filterMap]
    exact ⟨Component.vevent e, hmem, rfl⟩
  simpa [get_known_event_uids, get_event_uid] using
    List.mem_map_of_mem get_event_uid this

set_option maxRecDepth 10000 in
set_option maxHeartbeats 2000000 in
theorem get_event_uid_returns_recomputed_app :
    get_event_uid_warns ⟨"wrong-uid", ⟨2024, 1, 1⟩, ⟨2024, 1, 2⟩,
      ⟨2023, 5, 1, 12, 34, 0⟩, "test_event1"⟩ = true ∧
    Component.vevent ⟨"wrong-uid", ⟨2024, 1, 1⟩, ⟨2024, 1, 2⟩,
        ⟨2023, 5, 1, 12, 34, 0⟩, "test_event1"⟩ ∈
      [Component.vevent ⟨"wrong-uid", ⟨2024, 1, 1⟩, ⟨2024, 1, 2⟩,
        ⟨2023, 5, 1, 12, 34, 0⟩, "test_event1"⟩] ∧
    add_unique_event
        ⟨some "2.0", none,
         [Component.vevent ⟨"wrong-uid", ⟨2024, 1, 1⟩, ⟨2024, 1, 2⟩,
           ⟨2023, 5, 1, 12, 34, 0⟩, "test_event1"⟩]⟩
        (make_event ⟨2024, 1, 1⟩ "test_event1" ⟨2023, 10, 1, 12, 34, 0⟩) =
      ⟨some "2.0", none,
       [Component.vevent ⟨"wrong-uid", ⟨2024, 1, 1⟩, ⟨2024, 1, 2⟩,
         ⟨2023, 5, 1, 12, 34, 0⟩, "test_event1"⟩]⟩ :=
  ⟨by decide, by decide,
   (get_event_uid_returns_recomputed
       ⟨"wrong-uid", ⟨2024, 1, 1⟩, ⟨2024, 1, 2⟩,
        ⟨2023, 5, 1, 12, 34, 0⟩, "test_event1"⟩).2.2
     ⟨some "2.0", none,
      [Component.vevent ⟨"wrong-uid", ⟨2024, 1, 1⟩, ⟨2024, 1, 2⟩,
        ⟨2023, 5, 1, 12, 34, 0⟩, "test_event1"⟩]⟩
     ⟨2023, 10, 1, 12, 34, 0⟩ (by decide)⟩

/-- C2: `add_unique_event` appends exactly when the candidate's recomputed
uid is absent from the recomputed uids of the calendar's UID-carrying
components; two adds built from the same `(date, description)` with any
stamps leave one stored copy, and a third with a differing identity leaves
two. -/
theorem add_unique_event_insert_once
    (cal : VCalendar) (ev : VEvent) (d d2 : Date) (desc desc2 : String)
    (s1 s2 s3 : DateTime) :
    ((add_unique_event cal ev).components =
        cal.components ++ [Component.vevent ev] ↔
      get_event_uid ev ∉ get_known_event_uids cal) ∧
    (add_unique_event (add_unique_event (create_or_load_icalendar none)
          (make_event d desc s1)) (make_event d desc s2)).components =
      [Component.vevent (make_event d desc s1)] ∧
    (make_uid d2 desc2 ≠ make_uid d desc →
      (add_unique_event (add_unique_event (add_unique_event
            (create_or_load_icalendar none) (make_event d desc s1))
          (make_event d desc s2)) (make_event d2 desc2 s3)).components =
        [Component.vevent (make_event d desc s1),
         Component.vevent (make_event d2 desc2 s3)]) := by
  have h1 : add_unique_event (create_or_load_icalendar none) (make_event d desc s1) =
      ⟨some "2.0", some "ghic.org:caltech_holiday.py",
       [Component.vevent (make_event d desc s1)]⟩ := by
    rw [add_unique_event_of_not_mem]
    · rfl
    · simp [get_known_event_uids, uidComponents, create_or_load_icalendar]
  have h2 : add_unique_event
      (⟨some "2.0", some "ghic.org:caltech_holiday.py",
        [Component.vevent (make_event d desc s1)]⟩ : VCalendar)
      (make_event d desc s2) =
      ⟨some "2.0", some "ghic.org:caltech_holiday.py",
       [Component.vevent (make_event d desc s1)]⟩ := by
    apply add_unique_event_of_mem
    simp [get_known_event_uids, uidComponents, get_event_uid_make_event]
  refine ⟨?_, ?_, ?_⟩
  · by_cases hmem : get_event_uid ev ∈ get_known_event_uids cal
    · rw [add_unique_event_of_mem cal ev hmem]
      simp [hmem]
    · rw [add_unique_event_of_not_mem cal ev hmem]
      simp [hmem]
  · rw [h1, h2]
  · intro hne
    rw [h1, h2, add_unique_event_of_not_mem]
    · rfl
    · simpa [get_known_event_uids, uidComponents, get_event_uid_make_event]
        using hne

set_option maxRecDepth 10000 in
set_option maxHeartbeats 2000000 in
theorem add_unique_event_insert_once_app :
    make_uid ⟨2024, 1, 15⟩ "test_event2" ≠ make_uid ⟨2024, 1, 1⟩ "test_event1" ∧
    (add_unique_event (add_unique_event (add_unique_event
          (create_or_load_icalendar none)
          (make_event ⟨2024, 1, 1⟩ "test_event1" ⟨2023, 5, 1, 12, 34, 0⟩))
        (make_event ⟨2024, 1, 1⟩ "test_event1" ⟨2023, 5, 1, 12, 34, 0⟩))
      (make_event ⟨2024, 1, 15⟩ "test_event2" ⟨2023, 5, 1, 12, 34, 0⟩)).components =
      [Component.vevent (make_event ⟨2024, 1, 1⟩ "test_event1" ⟨2023, 5, 1, 12, 34, 0⟩),
       Component.vevent (make_event ⟨2024, 1, 15⟩ "test_event2" ⟨2023, 5, 1, 12, 34, 0⟩)] := by
  have hne : make_uid ⟨2024, 1, 15⟩ "test_event2" ≠ make_uid ⟨2024, 1, 1⟩ "test_event1" := by
    decide
  exact ⟨hne,
    (add_unique_event_insert_once (create_or_load_icalendar none)
      (make_event ⟨2024, 1, 1⟩ "test_event1" ⟨2023, 5, 1, 12, 34, 0⟩)
      ⟨2024, 1, 1⟩ ⟨2024, 1, 15⟩ "test_event1" "test_event2"
      ⟨2023, 5, 1, 12, 34, 0⟩ ⟨2023, 5, 1, 12, 34, 0⟩
      ⟨2023, 5, 1, 12, 34, 0⟩).2.2 hne⟩

/-- The known uids after a merge step: unchanged on a duplicate, extended
by the candidate's uid otherwise. -/
theorem get_known_event_uids_add (cal : VCalendar) (ev : VEvent) :
    get_known_event_uids (add_unique_event cal ev) =
      if get_event_uid ev ∈ get_known_event_uids cal
      then get_known_event_uids cal
      else get_known_event_uids cal ++ [get_event_uid ev] := by
  by_cases hmem : get_event_uid ev ∈ get_known_event_uids cal
  · rw [add_unique_event_of_mem cal ev hmem, if_pos hmem]
  · rw [add_unique_event_of_not_mem cal ev hmem, if_neg hmem,
      get_known_event_uids_append_event]

/-- One merge step preserves pairwise-distinct recomputed identities. -/
theorem distinct_identities_step (cal : VCalendar) (ev : VEvent)
    (h : (get_known_event_uids cal).Pairwise (· ≠ ·)) :
    (get_known_event_uids (add_unique_event cal ev)).Pairwise (· ≠ ·) := by
  rw [get_known_event_uids_add]
  by_cases hmem : get_event_uid ev ∈ get_known_event_uids cal
  · rwa [if_pos hmem]
  · rw [if_neg hmem]
    refine List.pairwise_append.mpr ⟨h, List.pairwise_singleton _ _, ?_⟩
    intro a ha b hb
    rw [List.mem_singleton] at hb
    subst hb
    intro heq
    exact hmem (heq ▸ ha)

/-- C3: from a calendar whose UID-carrying components have pairwise
distinct recomputed identities, any finite sequence of `add_unique_event`
calls leaves the identities pairwise distinct. -/
theorem merge_preserves_distinct_identities (cal : VCalendar)
    (evs : List VEvent)
    (h : (get_known_event_uids cal).Pairwise (· ≠ ·)) :
    (get_known_event_uids (evs.foldl add_unique_event cal)).Pairwise (· ≠ ·) := by
  induction evs generalizing cal with
  | nil => simpa using h
  | cons e rest ih => exact ih _ (distinct_identities_step cal e h)

set_option maxRecDepth 10000 in
set_option maxHeartbeats 2000000 in
theorem merge_preserves_distinct_identities_app :
    (get_known_event_uids
        ⟨some "2.0", none,
         [Component.vevent (make_event ⟨2024, 1, 1⟩ "test_event1" ⟨2023, 5, 1, 12, 34, 0⟩),
          Component.vevent (make_event ⟨2024, 1, 15⟩ "test_event2" ⟨2023, 5, 1, 12, 34, 0⟩)]⟩).Pairwise
      (· ≠ ·) ∧
    (get_known_event_uids
        ([make_event ⟨2024, 1, 1⟩ "test_event1" ⟨2023, 10, 1, 12, 34, 0⟩].foldl
          add_unique_event
          ⟨some "2.0", none,
           [Component.vevent (make_event ⟨2024, 1, 1⟩ "test_event1" ⟨2023, 5, 1, 12, 34, 0⟩),
            Component.vevent (make_event ⟨2024, 1, 15⟩ "test_event2" ⟨2023, 5, 1, 12, 34, 0⟩)]⟩)).Pairwise
      (· ≠ ·) := by
  have h : (get_known_event_uids
      ⟨some "2.0", none,
       [Component.vevent (make_event ⟨2024, 1, 1⟩ "test_event1" ⟨2023, 5, 1, 12, 34, 0⟩),
        Component.vevent (make_event ⟨2024, 1, 15⟩ "test_event2" ⟨2023, 5, 1, 12, 34, 0⟩)]⟩).Pairwise
      (· ≠ ·) := by decide
  exact ⟨h, merge_preserves_distinct_identities _ _ h⟩

/-- C7 counterexample: a dated row whose day specifier fails both formats
is not skipped — the `ValueError` aborts the extraction and the following
well-formed row is never yielded; and a row with 3 cells is skipped with
no diagnostic at all. -/
theorem get_table_entries_malformation_cex :
    get_table_entries "2024"
        [["1", "Mon", "Bogus 99", "X"], ["2", "Tue", "January 1", "Good"]] =
      ⟨[], [], some "time data does not match format: Bogus 99"⟩ ∧
    get_table_entries "2024" [["only", "three", "cells"]] = ⟨[], [], none⟩ := by
  decide

/-- C7 (amended): a row with other than 4 cells is skipped silently and
extraction continues; a non-dated row whose description is not exactly
`Personal Holiday` is skipped with a diagnostic and extraction continues;
a dated row whose day specifier fails both accepted formats aborts the
extraction with an escaping error, discarding all later rows. -/
theorem get_table_entries_row_handling (year : String) (row : List String)
    (rest : List (List String)) :
    (row.length ≠ 4 →
      get_table_entries year (row :: rest) = get_table_entries year rest) ∧
    (∀ c0 c1 c2 c3, row = [c0, c1, c2, c3] →
      pyStartsWith (pyStrip c2) "-" = true → pyStrip c3 ≠ "Personal Holiday" →
      get_table_entries year (row :: rest) =
        ⟨(get_table_entries year rest).records,
         ("unrecognized calendar line: " ++ c0 ++ c1 ++ c2 ++ c3) ::
           (get_table_entries year rest).infos,
         (get_table_entries year rest).error⟩) ∧
    (∀ c0 c1 c2 c3, row = [c0, c1, c2, c3] →
      pyStartsWith (pyStrip c2) "-" = false →
      strptimeMonthDayCommaYear (pyStrip c2) = none →
      strptimeYearMonthDay (year ++ " " ++ pyStrip c2) = none →
      get_table_entries year (row :: rest) =
        ⟨[], [], some ("time data does not match format: " ++ pyStrip c2)⟩) := by
  refine ⟨?_, ?_, ?_⟩
  · intro hlen
    rcases row with _ | ⟨a, _ | ⟨b, _ | ⟨c, _ | ⟨d, _ | ⟨e, tail⟩⟩⟩⟩⟩
    · rfl
    · rfl
    · rfl
    · rfl
    · exact absurd rfl hlen
    · rfl
  · intro c0 c1 c2 c3 hrow hdash hdesc
    subst hrow
    simp [get_table_entries, hdash, hdesc]
  · intro c0 c1 c2 c3 hrow hdash hp1 hp2
    subst hrow
    simp [get_table_entries, hdash, hp1, hp2]

theorem get_table_entries_row_handling_app :
    strptimeMonthDayCommaYear "Bogus 99" = none ∧
    strptimeYearMonthDay ("2024" ++ " " ++ "Bogus 99") = none ∧
    get_table_entries "2024" [["1", "Mon", "Bogus 99", "X"]] =
      ⟨[], [], some "time data does not match format: Bogus 99"⟩ :=
  ⟨by decide, by decide,
   (get_table_entries_row_handling "2024" ["1", "Mon", "Bogus 99", "X"] []).2.2
     "1" "Mon" "Bogus 99" "X" rfl (by decide) (by decide) (by decide)⟩

/-- C8 counterexample: a heading whose trimmed text has the fixed title
but no 4-digit year is still accepted (its trailing 4 characters are
returned), and its section is not skipped — a row relying on the
section-year fallback then aborts the whole extraction, so a later
well-formed section is never yielded. -/
theorem get_year_from_header_nondigit_cex :
    get_year_from_header "Caltech Holiday Observances for eventually" =
      some "ally" ∧
    get_calendar_entries
        [("Caltech Holiday Observances for eventually",
          [["1", "Mon", "January 1", "A"]]),
         ("Caltech Holiday Observances for 2024",
          [["2", "Tue", "January 2", "B"]])] =
      ⟨[], [], some "time data does not match format: January 1"⟩ := by
  decide

/-- C8 (amended): a heading is accepted whenever its trimmed text starts
with `Caltech Holiday Observances for `, its year being the trailing 4
characters whether digits or not; only headings without that title are
skipped, with a diagnostic and without aborting; and an error escaping a
section's rows aborts the whole extraction. -/
theorem get_year_from_header_title_only (h : String)
    (rows : List (List String)) (rest : DocSections) :
    (pyStartsWith (pyStrip h) "Caltech Holiday Observances for " = true →
      get_year_from_header h = some (pyTakeRight (pyStrip h) 4)) ∧
    (pyStartsWith (pyStrip h) "Caltech Holiday Observances for " = false →
      get_year_from_header h = none ∧
      get_calendar_entries ((h, rows) :: rest) =
        ⟨(get_calendar_entries rest).records,
         ("Unrecognized table title: " ++ pyStrip h) ::
           (get_calendar_entries rest).infos,
         (get_calendar_entries rest).error⟩) ∧
    (∀ year e, get_year_from_header h = some year →
      (get_table_entries year rows).error = some e →
      get_calendar_entries ((h, rows) :: rest) =
        ⟨(get_table_entries year rows).records,
         (get_table_entries year rows).infos, some e⟩) := by
  refine ⟨?_, ?_, ?_⟩
  · intro htitle
    simp [get_year_from_header, htitle]
  · intro htitle
    have hy : get_year_from_header h = none := by
      simp [get_year_from_header, htitle]
    exact ⟨hy, by simp [get_calendar_entries, hy]⟩
  · intro year e hy herr
    simp [get_calendar_entries, hy, herr]

theorem get_year_from_header_title_only_app :
    pyStartsWith (pyStrip "Random heading")
      "Caltech Holiday Observances for " = false ∧
    get_year_from_header "Random heading" = none ∧
    get_calendar_entries [("Random heading", [])] =
      ⟨[], ["Unrecognized table title: Random heading"], none⟩ :=
  ⟨by decide,
   ((get_year_from_header_title_only "Random heading" [] []).2.1 (by decide)).1,
   ((get_year_from_header_title_only "Random heading" [] []).2.1 (by decide)).2⟩

set_option maxRecDepth 10000 in
set_option maxHeartbeats 2000000 in
/-- C9 counterexample: with the `Last-Modified` header absent the run is
not fatal — `parse_last_modified` substitutes the clock reading and the
run proceeds to build events stamped with it, exiting successfully. -/
theorem missing_last_modified_not_fatal_cex :
    parse_last_modified none ⟨2024, 5, 1, 12, 0, 0⟩ =
      Except.ok ⟨2024, 5, 1, 12, 0, 0⟩ ∧
    main true none ⟨2024, 5, 1, 12, 0, 0⟩
        [("Caltech Holiday Observances for 2024",
          [["1", "Mon", "January 1", "A"]])]
        none false =
      ⟨some ⟨some "2.0", some "ghic.org:caltech_holiday.py",
         [Component.vevent (make_event ⟨2024, 1, 1⟩ "A" ⟨2024, 5, 1, 12, 0, 0⟩)]⟩,
       0⟩ := by
  constructor
  · rfl
  · decide

/-- C9 (amended): an absent `Last-Modified` header makes
`parse_last_modified` return the current time and the run proceed — a
completed extraction with at least one record exits with status 0 — and no
run ever exits with `ERROR_PARSE_FAILED`: that guard in `main` is dead,
since `parse_last_modified` either returns a datetime or raises (the
latter exiting with the catch-all `ERROR_UNKNOWN`). -/
theorem parse_last_modified_absent_header_fallback
    (now : DateTime) (doc : DocSections) (loaded : Option VCalendar)
    (dry_run : Bool) :
    parse_last_modified none now = Except.ok now ∧
    ((get_calendar_entries doc).error = none →
      (get_calendar_entries doc).records ≠ [] →
      (main true none now doc loaded dry_run).exitCode = 0) ∧
    (∀ (pageOk : Bool) (lastModified : Option String),
      (main pageOk lastModified now doc loaded dry_run).exitCode ≠
        ERROR_PARSE_FAILED) := by
  refine ⟨rfl, ?_, ?_⟩
  · intro herr hrec
    have hlen : ((get_calendar_entries doc).records.length == 0) = false := by
      simpa [List.length_eq_zero] using hrec
    simp [main, parse_last_modified, herr, hlen]
  · intro pageOk lastModified
    cases pageOk
    · simp [main, ERROR_GET_PAGE_FAILED, ERROR_PARSE_FAILED]
    · cases hpl : parse_last_modified lastModified now with
      | error msg =>
        simp [main, hpl, ERROR_UNKNOWN, ERROR_PARSE_FAILED]
      | ok dt =>
        cases herr : (get_calendar_entries doc).error with
        | some e => simp [main, hpl, herr, ERROR_UNKNOWN, ERROR_PARSE_FAILED]
        | none =>
          simp only [main, Bool.not_true, Bool.false_eq_true, if_false, hpl, herr]
          split
          · simp [ERROR_NO_EVENTS, ERROR_PARSE_FAILED]
          · simp [ERROR_PARSE_FAILED]

theorem parse_last_modified_absent_header_fallback_app :
    (get_calendar_entries
        [("Caltech Holiday Observances for 2024",
          [["1", "Mon", "January 1", "A"]])]).error = none ∧
    (get_calendar_entries
        [("Caltech Holiday Observances for 2024",
          [["1", "Mon", "January 1", "A"]])]).records ≠ [] ∧
    (main true none ⟨2024, 5, 1, 12, 0, 0⟩
        [("Caltech Holiday Observances for 2024",
          [["1", "Mon", "January 1", "A"]])]
        none true).exitCode = 0 :=
  ⟨by decide, by decide,
   (parse_last_modified_absent_header_fallback ⟨2024, 5, 1, 12, 0, 0⟩
       [("Caltech Holiday Observances for 2024",
         [["1", "Mon", "January 1", "A"]])]
       none true).2.1 (by decide) (by decide)⟩

/-- C10: a run whose extraction completes with zero records, without
dry-run, still writes the calendar — the loaded one, or a fresh calendar
holding only the version and producer metadata — and returns the distinct
no-events status. -/
theorem main_no_events_still_writes (lastModified : Option String)
    (now dtstamp : DateTime) (doc : DocSections) (loaded : Option VCalendar)
    (hok : parse_last_modified lastModified now = Except.ok dtstamp)
    (hrec : (get_calendar_entries doc).records = [])
    (herr : (get_calendar_entries doc).error = none) :
    main true lastModified now doc loaded false =
      ⟨some (create_or_load_icalendar loaded), ERROR_NO_EVENTS⟩ ∧
    create_or_load_icalendar none =
      ⟨some "2.0", some "ghic.org:caltech_holiday.py", []⟩ := by
  refine ⟨?_, rfl⟩
  simp [main, hok, hrec, herr]

theorem main_no_events_still_writes_app :
    parse_last_modified none ⟨2024, 5, 1, 0, 0, 0⟩ =
      Except.ok ⟨2024, 5, 1, 0, 0, 0⟩ ∧
    (get_calendar_entries []).records = [] ∧
    (get_calendar_entries []).error = none ∧
    main true none ⟨2024, 5, 1, 0, 0, 0⟩ [] none false =
      ⟨some (create_or_load_icalendar none), ERROR_NO_EVENTS⟩ :=
  ⟨rfl, rfl, rfl,
   (main_no_events_still_writes none ⟨2024, 5, 1, 0, 0, 0⟩
       ⟨2024, 5, 1, 0, 0, 0⟩ [] none rfl rfl rfl).1⟩

end CaltechHolidays
